import Mathlib

/-!
Shallow embedding of the report-simulator core (src/geminiService.ts, the
dashboard component and the app shell) together with proofs about the
spec-level claims on that code.

Conventions used throughout:
* JavaScript numbers appearing only as data are modelled as `Int`.
* Optional / possibly-`undefined` JavaScript fields are modelled as `Option`.
* A JavaScript "unit of work" (`requestFn`) that may behave differently on
  each invocation is modelled as a function from the attempt index to an
  `Except` result; exceptions are modelled by the `Except.error` branch.
* `setTimeout` waits are recorded as a list of waited delays (in ms) so that
  the backoff schedule is observable in the model.
-/

/-- Shape of a transport failure as inspected by `retryRequest`
(src/geminiService.ts line 12): a possibly-present structured `status`,
a possibly-present structured `code`, and a possibly-present free-text
`message`. -/
structure ApiError where
  status : Option Nat
  code : Option Nat
  message : Option String
deriving DecidableEq

/-- Helper for `strIncludes`: does `needle` occur as a contiguous run inside
the character list? Mirrors the semantics of JavaScript
`String.prototype.includes`. -/
def strIncludesAux (needle : List Char) : List Char → Bool
  | [] => needle.isEmpty
  | c :: rest => needle.isPrefixOf (c :: rest) || strIncludesAux needle rest

/-- JavaScript `s.includes(needle)` (used as `error?.message?.includes('429')`
in src/geminiService.ts line 12). -/
def strIncludes (s needle : String) : Bool :=
  strIncludesAux needle.data s.data

/-- The rate-limit classifier of `retryRequest`
(src/geminiService.ts line 12):
`error?.status === 429 || error?.code === 429 || error?.message?.includes('429')`.
An absent `message` makes the optional-chained call `undefined`, hence falsy. -/
def isRateLimitError (e : ApiError) : Bool :=
  e.status == some 429 || e.code == some 429 ||
    (match e.message with
     | some m => strIncludes m "429"
     | none => false)

/-- `retryRequest` (src/geminiService.ts lines 8-19).  `work n` is the result
of the `n`-th invocation of `requestFn`.  The function returns the final
outcome together with the list of delays (ms) waited before each retry.
The source recursion `retryRequest(requestFn, retries - 1, delay * 2)` is
mirrored with `retries` as the structural fuel; the guard is
`retries > 0 && isRateLimit`, so at `retries = 0` every failure propagates. -/
def retryRequest {α : Type} (work : Nat → Except ApiError α) :
    Nat → Nat → Nat → Except ApiError α × List Nat
  | 0, attempt, _ =>
    match work attempt with
    | .ok a => (.ok a, [])
    | .error e => (.error e, [])
  | r + 1, attempt, delay =>
    match work attempt with
    | .ok a => (.ok a, [])
    | .error e =>
      if isRateLimitError e then
        ((retryRequest work r (attempt + 1) (delay * 2)).1,
          delay :: (retryRequest work r (attempt + 1) (delay * 2)).2)
      else (.error e, [])

/-- `ArticleCategory` enum (types.ts). -/
inductive ArticleCategory
  | politics | economy | society | entertainment | tech | sports | opinion
deriving DecidableEq

/-- `Article` (types.ts).  The optional boolean flags default to `false` when
absent (JavaScript falsiness), so they are modelled directly as `Bool`.
`targetYear` is a numeric string in the source; it is modelled here already
parsed, with `none` standing for an absent or empty (falsy) string. -/
structure Article where
  title : String
  category : ArticleCategory
  content : String
  author : String
  timestamp : String
  isFakeNews : Bool
  isCrazyMode : Bool
  isEmergencyMode : Bool
  isTimeMachineMode : Bool
  targetYear : Option Int
  previousArticleContext : Option String
deriving DecidableEq

/-- The five era brackets produced by the era-context selection in
`analyzeArticle` (src/geminiService.ts lines 42-90) and, with identical
branch structure, by `getEraContext` (lines 21-33), plus the fixed
present-day context used when time-machine mode is off. -/
inductive EraBracket
  | printBroadcast | pcComm | earlySocial | future | contemporary | presentDay
deriving DecidableEq

/-- Era bracket selection (src/geminiService.ts lines 42-90; `getEraContext`
at lines 21-33 has the same branch structure).  `targetYear` is the effective
year.  The `else if` chain of the source is mirrored exactly, including the
redundant lower bounds written in `analyzeArticle`
(`targetYear >= 1990 && targetYear < 2000` etc.). -/
def eraBracket (currentYear : Int) (isTimeMachineMode : Bool)
    (targetYear : Int) : EraBracket :=
  if isTimeMachineMode then
    if targetYear < 1990 then .printBroadcast
    else if 1990 ≤ targetYear ∧ targetYear < 2000 then .pcComm
    else if 2000 ≤ targetYear ∧ targetYear < 2010 then .earlySocial
    else if currentYear + 5 < targetYear then .future
    else .contemporary
  else .presentDay

/-- The four instruction blocks that can be pushed onto `modeInstructions`
(src/geminiService.ts lines 93-127), abstracting the Korean prompt text of
each block. -/
inductive ModeBlock
  | emergencyBlock | crazyBlock | fakeNewsBlock | normalBlock
deriving DecidableEq

/-- `modeInstructions` (src/geminiService.ts lines 93-127): an array built by
pushing the emergency block, then the crazy block, then the fake-news block,
each guarded by its flag, and finally the normal block exactly when the array
is still empty (`modeInstructions.length === 0`). -/
def modeInstructions (a : Article) : List ModeBlock :=
  let blocks :=
    (if a.isEmergencyMode then [ModeBlock.emergencyBlock] else []) ++
    (if a.isCrazyMode then [ModeBlock.crazyBlock] else []) ++
    (if a.isFakeNews then [ModeBlock.fakeNewsBlock] else [])
  if blocks.length = 0 then [ModeBlock.normalBlock] else blocks

/-- Whether a given instruction block's flag is active on the article;
the normal block is not flag-driven. -/
def blockActive (a : Article) : ModeBlock → Bool
  | .emergencyBlock => a.isEmergencyMode
  | .crazyBlock => a.isCrazyMode
  | .fakeNewsBlock => a.isFakeNews
  | .normalBlock => false

/-- Number of active mode flags among emergency / crazy / fakeNews. -/
def activeModeCount (a : Article) : Nat :=
  (cond a.isEmergencyMode 1 0) + (cond a.isCrazyMode 1 0) +
    (cond a.isFakeNews 1 0)

/-- `Reply` (types.ts). -/
structure Reply where
  username : String
  content : String
  likes : Int
deriving DecidableEq

/-- `Comment` (types.ts).  `sentiment` is one of the literal strings
"positive" / "negative" / "neutral" in the source and is kept as a string. -/
structure Comment where
  username : String
  content : String
  likes : Int
  sentiment : String
  platform : String
  replies : List Reply
deriving DecidableEq

/-- `MediaCoverage` (types.ts). -/
structure MediaCoverage where
  mediaName : String
  headline : String
deriving DecidableEq

/-- `StockPoint` (types.ts). -/
structure StockPoint where
  time : String
  value : Int
deriving DecidableEq

/-- `StockSector` (types.ts). -/
structure StockSector where
  name : String
  change : Int
deriving DecidableEq

/-- `StockAnalysis` (types.ts). -/
structure StockAnalysis where
  indexName : String
  startValue : Int
  endValue : Int
  graphData : List StockPoint
  affectedSectors : List StockSector
  marketCommentary : String
deriving DecidableEq

/-- `ExtraIndices` (types.ts). -/
structure ExtraIndices where
  nationalAnxiety : Int
  economicStability : Int
  angerIndex : Int
deriving DecidableEq

/-- `SimulationResult` (types.ts).  `stockAnalysis` and `extraIndices` are
optional in the consumed type. -/
structure SimulationResult where
  viralityScore : Int
  reliabilityScore : Int
  controversyScore : Int
  publicSentiment : String
  editorFeedback : String
  impactSummary : String
  comments : List Comment
  otherMediaCoverage : List MediaCoverage
  viewCountEstimate : Int
  shareCount : Int
  stockAnalysis : Option (List StockAnalysis)
  extraIndices : Option ExtraIndices
deriving DecidableEq

/-- The object literal returned by the `catch` block of `analyzeArticle`
(src/geminiService.ts lines 302-313).  `stockAnalysis` and `extraIndices` are
omitted there, i.e. absent. -/
def fallbackResult : SimulationResult :=
  { viralityScore := 0
    reliabilityScore := 0
    controversyScore := 0
    publicSentiment := "Error"
    editorFeedback := "시스템 오류: AI 응답 지연. 잠시 후 다시 시도해주세요."
    impactSummary := "데이터 전송 실패."
    viewCountEstimate := 0
    shareCount := 0
    comments := []
    otherMediaCoverage := []
    stockAnalysis := none
    extraIndices := none }

/-- The two failure shapes a caller of the response validation step could
distinguish: the explicit `new Error("No response text generated")` thrown
when the text is absent, and the `SyntaxError` thrown by `JSON.parse` on
malformed text. -/
inductive VError
  | emptyResponse | decodeFailure
deriving DecidableEq

/-- The result-validation step of `analyzeArticle`
(src/geminiService.ts lines 295-299):
`if (response.text) { return JSON.parse(response.text) } else { throw ... }`.
`text` is `none` for an absent field; the JavaScript truthiness test also
sends the empty string to the `else` branch.  `parse` models `JSON.parse`
composed with the cast to `SimulationResult`; `parse s = none` models a parse
exception on malformed text. -/
def validateResponse (parse : String → Option SimulationResult)
    (text : Option String) : Except VError SimulationResult :=
  match text with
  | some s =>
    if s ≠ "" then
      match parse s with
      | some r => .ok r
      | none => .error .decodeFailure
    else .error .emptyResponse
  | none => .error .emptyResponse

/-- `analyzeArticle` (src/geminiService.ts lines 35-315), abstracted over the
transport (`work n` = the `n`-th invocation of the generation call, returning
the optional response text) and the JSON decode.  The whole
request/validation chain sits inside one `try`; every exception — transport
failure after retries, the empty-response throw, or a decode throw — reaches
the `catch` block, which RETURNS `fallbackResult` instead of rethrowing. -/
def analyzeArticle (work : Nat → Except ApiError (Option String))
    (parse : String → Option SimulationResult) : SimulationResult :=
  match (retryRequest work 3 0 2000).1 with
  | .error _ => fallbackResult
  | .ok text =>
    match validateResponse parse text with
    | .ok r => r
    | .error _ => fallbackResult

/-- `generateReplyReaction` (src/geminiService.ts lines 317-380), abstracted
the same way (`parse` models `JSON.parse` plus the cast to `Reply[]`).
Source: `if (response.text) { return JSON.parse(response.text) as Reply[]; }
return [];` inside a `try` whose `catch` returns `[]`. -/
def generateReplyReaction (work : Nat → Except ApiError (Option String))
    (parse : String → Option (List Reply)) : List Reply :=
  match (retryRequest work 3 0 2000).1 with
  | .error _ => []
  | .ok text =>
    match text with
    | some s =>
      if s ≠ "" then
        match parse s with
        | some rs => rs
        | none => []
      else []
    | none => []

/-- `AppState` enum of the app shell. -/
inductive AppPhase
  | EDITOR | SIMULATING | RESULT
deriving DecidableEq

/-- The app shell's state relevant to publishing: current phase, current
article, latest result, and the session history list. -/
structure AppS where
  appState : AppPhase
  article : Article
  result : Option SimulationResult
  history : List (Article × SimulationResult)
deriving DecidableEq

/-- `handlePublish` of the app shell.  It awaits `analyzeArticle`, stores the
result, prepends `(article, result)` onto the history, and moves to RESULT.
Because `analyzeArticle` catches every failure internally and returns
`fallbackResult`, the `await` never throws, so `handlePublish`'s own `catch`
branch (alert + return to EDITOR) is unreachable and the success path below
is the complete behaviour. -/
def handlePublish (work : Nat → Except ApiError (Option String))
    (parse : String → Option SimulationResult) (s : AppS) : AppS :=
  let simulationResult := analyzeArticle work parse
  { s with
    appState := .RESULT
    result := some simulationResult
    history := (s.article, simulationResult) :: s.history }

/-- The whitespace set stripped by JavaScript `String.prototype.trim`
(restricted here to the common ASCII whitespace characters). -/
def jsWhitespace (c : Char) : Bool :=
  c = ' ' || c = '\t' || c = '\n' || c = '\r' || c = '\u000B' || c = '\u000C'

/-- JavaScript `s.trim()` as used in the guard `if (!replyText.trim())` of
`handleSubmitReply`. -/
def jsTrim (s : String) : String :=
  String.mk (((s.data.dropWhile jsWhitespace).reverse.dropWhile
    jsWhitespace).reverse)

/-- `filteredComments` of the dashboard component:
`selectedPlatform === 'ALL' ? localComments
 : localComments.filter(c => c.platform === selectedPlatform)`. -/
def filteredComments (selectedPlatform : String) (localComments : List Comment) :
    List Comment :=
  if selectedPlatform = "ALL" then localComments
  else localComments.filter (fun c => c.platform == selectedPlatform)

/-- The optimistic update inside `handleSubmitReply`:
`prev.map((c, i) => i === targetCommentIdx
   ? { ...c, replies: [...c.replies, reporterReply] } : c)`. -/
def appendReplyAt (targetCommentIdx : Nat) (r : Reply)
    (localComments : List Comment) : List Comment :=
  localComments.mapIdx (fun i c =>
    if i = targetCommentIdx then { c with replies := c.replies ++ [r] } else c)

/-- The dashboard component's local state touched by `handleSubmitReply`:
the comment list, the reply input text, which comment's reply form is open
(`replyingTo`), and the single shared pending marker `generatingReplyId`
(the index of the comment whose AI reaction call is in flight, `null`
otherwise). -/
structure DashState where
  localComments : List Comment
  replyText : String
  replyingTo : Option Nat
  generatingReplyId : Option Nat
deriving DecidableEq

/-- The synchronous prefix of `handleSubmitReply(targetCommentIdx, ...)` in
the dashboard component, i.e. everything executed before the `await` of
`generateReplyReaction`: the emptiness guard `if (!replyText.trim()) return`,
building `reporterReply` with `article.author || '기자'`, clearing the input
and the open form, setting `generatingReplyId` to `targetCommentIdx`, and the
optimistic append into `localComments`.  The handler consults no other state:
in particular it never reads `generatingReplyId` before overwriting it. -/
def handleSubmitReplySync (articleAuthor : String) (targetCommentIdx : Nat)
    (s : DashState) : DashState :=
  if jsTrim s.replyText = "" then s
  else
    { localComments :=
        appendReplyAt targetCommentIdx
          { username := if articleAuthor = "" then "기자" else articleAuthor
            content := s.replyText
            likes := 0 }
          s.localComments
      replyText := ""
      replyingTo := none
      generatingReplyId := some targetCommentIdx }

/-- Fixture: a comment living on the integrated-social platform. -/
def commentA : Comment :=
  { username := "userA", content := "first comment", likes := 3
    sentiment := "neutral", platform := "SNS", replies := [] }

/-- Fixture: a comment living on the news-portal platform. -/
def commentB : Comment :=
  { username := "userB", content := "second comment", likes := 7
    sentiment := "negative", platform := "뉴스 포털", replies := [] }

/-- Fixture: dashboard state with two comments on different platforms,
reply text entered for the displayed comment, and no sub-flow pending. -/
def dashStateFiltered : DashState :=
  { localComments := [commentA, commentB]
    replyText := "reply!"
    replyingTo := some 0
    generatingReplyId := none }

/-- Fixture: dashboard state in which the reply-reaction sub-flow for
comment 0 is still pending (`generatingReplyId = some 0`) while the user has
already typed a second reply to that same comment. -/
def dashStatePending : DashState :=
  { localComments := [commentA, commentB]
    replyText := "second reply"
    replyingTo := some 0
    generatingReplyId := some 0 }

/-- `strIncludesAux` decides contiguous containment. -/
lemma strIncludesAux_iff_infix (n : List Char) :
    ∀ h : List Char, strIncludesAux n h = true ↔ n <:+: h := by
  intro h
  induction h with
  | nil => simp [strIncludesAux, List.isEmpty_iff, List.infix_nil]
  | cons c rest ih =>
    simp [strIncludesAux, List.isPrefixOf_iff_prefix, ih,
      List.infix_cons_iff, Bool.or_eq_true]

/-- `strIncludes` decides substring containment on the character data. -/
lemma strIncludes_iff_infix (s needle : String) :
    strIncludes s needle = true ↔ needle.data <:+: s.data :=
  strIncludesAux_iff_infix needle.data s.data

/-- A successful attempt stops `retryRequest` immediately with no waits. -/
lemma retryRequest_ok {α : Type} (work : Nat → Except ApiError α)
    (r attempt delay : Nat) (a : α) (h : work attempt = .ok a) :
    retryRequest work r attempt delay = (.ok a, []) := by
  cases r <;> simp [retryRequest, h]

/-- With budget left, a rate-limited failure waits `delay` and recurses with
a doubled delay. -/
lemma retryRequest_rateLimited {α : Type} (work : Nat → Except ApiError α)
    (r attempt delay : Nat) (e : ApiError) (h : work attempt = .error e)
    (hrl : isRateLimitError e = true) :
    retryRequest work (r + 1) attempt delay =
      ((retryRequest work r (attempt + 1) (delay * 2)).1,
        delay :: (retryRequest work r (attempt + 1) (delay * 2)).2) := by
  simp [retryRequest, h, hrl]

/-- A failure not classified as rate-limiting propagates immediately with no
waits, whatever the remaining budget. -/
lemma retryRequest_other {α : Type} (work : Nat → Except ApiError α)
    (r attempt delay : Nat) (e : ApiError) (h : work attempt = .error e)
    (hrl : isRateLimitError e = false) :
    retryRequest work r attempt delay = (.error e, []) := by
  cases r <;> simp [retryRequest, h, hrl]

/-- With the budget exhausted, any failure propagates. -/
lemma retryRequest_exhausted {α : Type} (work : Nat → Except ApiError α)
    (attempt delay : Nat) (e : ApiError) (h : work attempt = .error e) :
    retryRequest work 0 attempt delay = (.error e, []) := by
  simp [retryRequest, h]

/-- Every recorded wait of `retryRequest` was preceded by a failure that the
classifier marked as rate-limiting: the `i`-th wait corresponds to attempt
`attempt + i` failing with a rate-limit-classified error. -/
lemma retryRequest_delays_rateLimited {α : Type}
    (work : Nat → Except ApiError α) :
    ∀ (r attempt delay i : Nat),
      i < ((retryRequest work r attempt delay).2).length →
      ∃ e, work (attempt + i) = Except.error e ∧ isRateLimitError e = true := by
  intro r
  induction r with
  | zero =>
    intro attempt delay i h
    exfalso
    cases hw : work attempt <;> simp [retryRequest, hw] at h
  | succ n ih =>
    intro attempt delay i h
    cases hw : work attempt with
    | ok a => simp [retryRequest_ok work (n + 1) attempt delay a hw] at h
    | error e =>
      by_cases hrl : isRateLimitError e = true
      · rw [retryRequest_rateLimited work n attempt delay e hw hrl] at h
        simp only [List.length_cons] at h
        cases i with
        | zero => exact ⟨e, by simpa using hw, hrl⟩
        | succ j =>
          have hj : j < ((retryRequest work n (attempt + 1) (delay * 2)).2).length := by
            omega
          obtain ⟨e2, he2, hrl2⟩ := ih (attempt + 1) (delay * 2) j hj
          refine ⟨e2, ?_, hrl2⟩
          rw [show attempt + (j + 1) = attempt + 1 + j by omega]
          exact he2
      · have hrl2 : isRateLimitError e = false := by
          revert hrl; cases isRateLimitError e <;> simp
        rw [retryRequest_other work (n + 1) attempt delay e hw hrl2] at h
        simp at h

/-- Claim C5: for every unit of work, if it fails with a rate-limit signal
exactly twice and then succeeds, `retryRequest` (called as in the source with
`retries = 3`, `delay = 2000`) returns the success result having waited
2000ms and then 4000ms; if it always fails with a rate-limit signal, it fails
after exactly the budget of 3 retries after the first attempt, i.e. 4
attempts in total, the final error being that of attempt 3 and the waits
being 2000, 4000, 8000 ms. -/
theorem retryRequest_retry_policy (α : Type) (work : Nat → Except ApiError α) :
    (∀ (e0 e1 : ApiError) (a : α),
      work 0 = .error e0 → isRateLimitError e0 = true →
      work 1 = .error e1 → isRateLimitError e1 = true →
      work 2 = .ok a →
      retryRequest work 3 0 2000 = (.ok a, [2000, 4000])) ∧
    ((∀ n, ∃ e, work n = .error e ∧ isRateLimitError e = true) →
      ∃ e, work 3 = .error e ∧
        retryRequest work 3 0 2000 = (.error e, [2000, 4000, 8000])) := by
  constructor
  · intro e0 e1 a h0 hr0 h1 hr1 h2
    have i1 : retryRequest work 1 2 8000 = (.ok a, []) :=
      retryRequest_ok work 1 2 8000 a h2
    have i2 : retryRequest work 2 1 4000 = (.ok a, [4000]) := by
      have step := retryRequest_rateLimited work 1 1 4000 e1 h1 hr1
      norm_num at step
      rw [step, i1]
    have step := retryRequest_rateLimited work 2 0 2000 e0 h0 hr0
    norm_num at step
    rw [step, i2]
  · intro hall
    obtain ⟨e0, h0, hr0⟩ := hall 0
    obtain ⟨e1, h1, hr1⟩ := hall 1
    obtain ⟨e2, h2, hr2⟩ := hall 2
    obtain ⟨e3, h3, hr3⟩ := hall 3
    refine ⟨e3, h3, ?_⟩
    have i0 : retryRequest work 0 3 16000 = (.error e3, []) :=
      retryRequest_exhausted work 3 16000 e3 h3
    have i1 : retryRequest work 1 2 8000 = (.error e3, [8000]) := by
      have step := retryRequest_rateLimited work 0 2 8000 e2 h2 hr2
      norm_num at step
      rw [step, i0]
    have i2 : retryRequest work 2 1 4000 = (.error e3, [4000, 8000]) := by
      have step := retryRequest_rateLimited work 1 1 4000 e1 h1 hr1
      norm_num at step
      rw [step, i1]
    have step := retryRequest_rateLimited work 2 0 2000 e0 h0 hr0
    norm_num at step
    rw [step, i2]

/-- Witness for C5 at concrete inputs: a work unit that is rate-limited on
attempts 0 and 1 and succeeds on attempt 2, and a work unit that is
rate-limited on every attempt. -/
theorem retryRequest_retry_policy_witness :
    retryRequest
        (fun n => if n < 2 then .error ⟨some 429, none, none⟩ else .ok 7)
        3 0 2000 = (.ok 7, [2000, 4000]) ∧
    retryRequest (fun _ => (.error ⟨some 429, none, none⟩ : Except ApiError Nat))
        3 0 2000 = (.error ⟨some 429, none, none⟩, [2000, 4000, 8000]) := by
  constructor
  · exact (retryRequest_retry_policy Nat
      (fun n => if n < 2 then .error ⟨some 429, none, none⟩ else .ok 7)).1
      ⟨some 429, none, none⟩ ⟨some 429, none, none⟩ 7
      (by rfl) (by decide) (by rfl) (by decide) (by rfl)
  · obtain ⟨e, he, hres⟩ := (retryRequest_retry_policy Nat
      (fun _ => .error ⟨some 429, none, none⟩)).2
      (fun _ => ⟨⟨some 429, none, none⟩, rfl, by decide⟩)
    rw [hres]
    cases he
    rfl

/-- Claim C6: a failure is classified as rate-limiting if and only if it
carries the structured status or code 429 or its unstructured message
contains the substring "429"; every failure not so classified is propagated
immediately with zero retries; and no error category other than
rate-limiting is ever retried (each recorded wait corresponds to a
rate-limit-classified failure). -/
theorem rateLimit_classification :
    (∀ e : ApiError,
      isRateLimitError e = true ↔
        (e.status = some 429 ∨ e.code = some 429 ∨
          ∃ m, e.message = some m ∧ "429".data <:+: m.data)) ∧
    (∀ (α : Type) (work : Nat → Except ApiError α) (r attempt delay : Nat)
        (e : ApiError),
      work attempt = .error e → isRateLimitError e = false →
      retryRequest work r attempt delay = (.error e, [])) ∧
    (∀ (α : Type) (work : Nat → Except ApiError α) (r attempt delay i : Nat),
      i < ((retryRequest work r attempt delay).2).length →
      ∃ e, work (attempt + i) = .error e ∧ isRateLimitError e = true) := by
  refine ⟨?_, ?_, ?_⟩
  · intro e
    obtain ⟨st, cd, msg⟩ := e
    cases msg with
    | none =>
      simp [isRateLimitError, Bool.or_eq_true, beq_iff_eq]
    | some m =>
      simp [isRateLimitError, Bool.or_eq_true, beq_iff_eq,
        strIncludes_iff_infix, or_assoc]
  · intro α work r attempt delay e h hrl
    exact retryRequest_other work r attempt delay e h hrl
  · intro α work r attempt delay i h
    exact retryRequest_delays_rateLimited work r attempt delay i h

/-- Witness for C6 at concrete inputs: an error whose message mentions 429 is
classified as rate-limiting, a 500-status error is not and propagates with
zero retries, and the first wait of a rate-limited run corresponds to a
rate-limit-classified failure at attempt 0. -/
theorem rateLimit_classification_witness :
    isRateLimitError ⟨none, none, some "got a 429 reply"⟩ = true ∧
    retryRequest (fun _ => (.error ⟨some 500, none, some "boom"⟩ :
        Except ApiError Nat)) 3 0 2000 =
      (.error ⟨some 500, none, some "boom"⟩, []) ∧
    ∃ e, (fun _ => (.error ⟨some 429, none, none⟩ : Except ApiError Nat))
        (0 + 0) = .error e ∧ isRateLimitError e = true := by
  refine ⟨?_, ?_, ?_⟩
  · exact (rateLimit_classification.1 ⟨none, none, some "got a 429 reply"⟩).2
      (Or.inr (Or.inr ⟨"got a 429 reply", rfl, by decide⟩))
  · exact rateLimit_classification.2.1 Nat
      (fun _ => .error ⟨some 500, none, some "boom"⟩) 3 0 2000
      ⟨some 500, none, some "boom"⟩ rfl (by decide)
  · exact rateLimit_classification.2.2 Nat
      (fun _ => .error ⟨some 429, none, none⟩) 3 0 2000 0 (by decide)

/-- Claim C7: for every subset of the flags {emergency, crazy, fakeNews},
if the subset is non-empty then `modeInstructions` produces exactly one
instruction block per active flag, in the fixed precedence order emergency,
crazy, fakeNews (the filter of the canonically ordered block list), and its
length equals the number of active flags; if the subset is empty it produces
exactly the single default normal-mode block. -/
theorem modeInstructions_composition (a : Article) :
    (a.isEmergencyMode = false → a.isCrazyMode = false →
      a.isFakeNews = false → modeInstructions a = [ModeBlock.normalBlock]) ∧
    (a.isEmergencyMode = true ∨ a.isCrazyMode = true ∨ a.isFakeNews = true →
      modeInstructions a =
        List.filter (blockActive a)
          [ModeBlock.emergencyBlock, ModeBlock.crazyBlock,
            ModeBlock.fakeNewsBlock] ∧
      (modeInstructions a).length = activeModeCount a) := by
  obtain ⟨t, cat, con, au, ts, fn, cz, em, tm, ty, pv⟩ := a
  cases em <;> cases cz <;> cases fn <;>
    simp [modeInstructions, blockActive, activeModeCount, List.filter]

/-- Witness for C7 at concrete inputs: with emergency and fakeNews active the
composer yields those two blocks in precedence order; with no flag active it
yields the single normal block. -/
theorem modeInstructions_composition_witness :
    modeInstructions
        { title := "t", category := .society, content := "c", author := "a"
          timestamp := "", isFakeNews := true, isCrazyMode := false
          isEmergencyMode := true, isTimeMachineMode := false
          targetYear := none, previousArticleContext := none } =
      [ModeBlock.emergencyBlock, ModeBlock.fakeNewsBlock] ∧
    modeInstructions
        { title := "t", category := .society, content := "c", author := "a"
          timestamp := "", isFakeNews := false, isCrazyMode := false
          isEmergencyMode := false, isTimeMachineMode := false
          targetYear := none, previousArticleContext := none } =
      [ModeBlock.normalBlock] := by
  constructor
  · have h := (modeInstructions_composition
      { title := "t", category := .society, content := "c", author := "a"
        timestamp := "", isFakeNews := true, isCrazyMode := false
        isEmergencyMode := true, isTimeMachineMode := false
        targetYear := none, previousArticleContext := none }).2
      (Or.inl rfl)
    rw [h.1]
    decide
  · exact (modeInstructions_composition
      { title := "t", category := .society, content := "c", author := "a"
        timestamp := "", isFakeNews := false, isCrazyMode := false
        isEmergencyMode := false, isTimeMachineMode := false
        targetYear := none, previousArticleContext := none }).1 rfl rfl rfl

/-- Claim C10: the mode-instruction composition depends only on the
emergency, crazy, and fakeNews flags — `isTimeMachineMode` (like every other
article field) never contributes a block — and an article with only
`isTimeMachineMode` active receives exactly the single default normal-mode
block. -/
theorem modeInstructions_independent_of_time_machine :
    (∀ a1 a2 : Article,
      a1.isEmergencyMode = a2.isEmergencyMode →
      a1.isCrazyMode = a2.isCrazyMode →
      a1.isFakeNews = a2.isFakeNews →
      modeInstructions a1 = modeInstructions a2) ∧
    (∀ a : Article, a.isEmergencyMode = false → a.isCrazyMode = false →
      a.isFakeNews = false → a.isTimeMachineMode = true →
      modeInstructions a = [ModeBlock.normalBlock]) := by
  constructor
  · intro a1 a2 h1 h2 h3
    simp only [modeInstructions, h1, h2, h3]
  · intro a h1 h2 h3 _
    simp [modeInstructions, h1, h2, h3]

/-- Witness for C10 at concrete inputs: two articles differing only in
`isTimeMachineMode` (and text fields) get the same blocks, and an article
with only `isTimeMachineMode` active gets the single normal block. -/
theorem modeInstructions_independent_of_time_machine_witness :
    modeInstructions
        { title := "x", category := .politics, content := "y", author := "z"
          timestamp := "", isFakeNews := false, isCrazyMode := true
          isEmergencyMode := false, isTimeMachineMode := true
          targetYear := some 1985, previousArticleContext := none } =
      modeInstructions
        { title := "q", category := .economy, content := "r", author := "s"
          timestamp := "", isFakeNews := false, isCrazyMode := true
          isEmergencyMode := false, isTimeMachineMode := false
          targetYear := none, previousArticleContext := some "prev" } ∧
    modeInstructions
        { title := "x", category := .politics, content := "y", author := "z"
          timestamp := "", isFakeNews := false, isCrazyMode := false
          isEmergencyMode := false, isTimeMachineMode := true
          targetYear := some 1985, previousArticleContext := none } =
      [ModeBlock.normalBlock] :=
  ⟨modeInstructions_independent_of_time_machine.1 _ _ rfl rfl rfl,
    modeInstructions_independent_of_time_machine.2
      { title := "x", category := .politics, content := "y", author := "z"
        timestamp := "", isFakeNews := false, isCrazyMode := false
        isEmergencyMode := false, isTimeMachineMode := true
        targetYear := some 1985, previousArticleContext := none }
      rfl rfl rfl rfl⟩

/-- Claim C8: era bracket selection is a total, deterministic function of
(effective year, time-machine flag) with no gaps: under time-machine mode,
years before 1990 select the print/broadcast bracket, 1990-1999 the
text-terminal bracket, 2000-2009 the early-social-web bracket, years strictly
greater than currentYear+5 the future bracket, and every other year
(including exactly currentYear+5) the default contemporary bracket; the
boundary years 1990 and 2000 fall into the bracket that starts at them, and
the five year ranges cover every integer.  With the flag off, selection is
the fixed present-day context.  (The side condition `2005 ≤ currentYear`
records that the code runs at a current date no earlier than 2005, so the
hard-coded decade brackets sit below the future cutoff.) -/
theorem eraBracket_brackets (currentYear y : Int) (hc : 2005 ≤ currentYear) :
    (y < 1990 → eraBracket currentYear true y = .printBroadcast) ∧
    (1990 ≤ y → y < 2000 → eraBracket currentYear true y = .pcComm) ∧
    (2000 ≤ y → y < 2010 → eraBracket currentYear true y = .earlySocial) ∧
    (currentYear + 5 < y → eraBracket currentYear true y = .future) ∧
    (2010 ≤ y → y ≤ currentYear + 5 →
      eraBracket currentYear true y = .contemporary) ∧
    eraBracket currentYear true 1990 = .pcComm ∧
    eraBracket currentYear true 2000 = .earlySocial ∧
    eraBracket currentYear true (currentYear + 5) = .contemporary ∧
    (y < 1990 ∨ (1990 ≤ y ∧ y < 2000) ∨ (2000 ≤ y ∧ y < 2010) ∨
      currentYear + 5 < y ∨ (2010 ≤ y ∧ y ≤ currentYear + 5)) ∧
    eraBracket currentYear false y = .presentDay := by
  refine ⟨?_, ?_, ?_, ?_, ?_, ?_, ?_, ?_, ?_, ?_⟩ <;> intros <;>
    first
    | omega
    | (simp only [eraBracket, if_true]
       split_ifs <;> first | rfl | omega)
    | simp [eraBracket]

/-- Witness for C8 at concrete inputs (currentYear 2024): sample years from
each bracket, the boundary years, and the flag-off case. -/
theorem eraBracket_brackets_witness :
    eraBracket 2024 true 1985 = .printBroadcast ∧
    eraBracket 2024 true 1990 = .pcComm ∧
    eraBracket 2024 true 2000 = .earlySocial ∧
    eraBracket 2024 true 2029 = .contemporary ∧
    eraBracket 2024 true 2030 = .future ∧
    eraBracket 2024 false 2024 = .presentDay :=
  ⟨(eraBracket_brackets 2024 1985 (by decide)).1 (by decide),
    (eraBracket_brackets 2024 1990 (by decide)).2.2.2.2.2.1,
    (eraBracket_brackets 2024 2000 (by decide)).2.2.2.2.2.2.1,
    (eraBracket_brackets 2024 2029 (by decide)).2.2.2.2.2.2.2.1,
    (eraBracket_brackets 2024 2030 (by decide)).2.2.2.1 (by decide),
    (eraBracket_brackets 2024 2024 (by decide)).2.2.2.2.2.2.2.2.2⟩

/-- Counterexample to claim C4 as stated: the response text `""` is present
but malformed (every JSON parser rejects the empty string — here the parse
is the one that rejects everything, in particular `""`), yet the validation
step classifies it as the typed empty-response failure, not as a decode
failure, because the JavaScript truthiness test `if (response.text)` sends
the empty string to the `else` branch. -/
theorem validateResponse_empty_string_counterexample :
    validateResponse (fun _ => none) (some "") = .error VError.emptyResponse ∧
    VError.emptyResponse ≠ VError.decodeFailure :=
  ⟨rfl, by decide⟩

/-- Claim C4 (amended): given absent response text — or present text equal to
the empty string, which the truthiness test treats the same way — the
validation step fails with the typed empty-response error; given present,
non-empty but malformed text it fails with a decode failure; and the two
failures are distinct, so callers can tell "the service returned nothing"
from "the service returned malformed data". -/
theorem validateResponse_classification
    (parse : String → Option SimulationResult) :
    validateResponse parse none = .error VError.emptyResponse ∧
    validateResponse parse (some "") = .error VError.emptyResponse ∧
    (∀ s, s ≠ "" → parse s = none →
      validateResponse parse (some s) = .error VError.decodeFailure) ∧
    VError.emptyResponse ≠ VError.decodeFailure := by
  refine ⟨rfl, rfl, ?_, by decide⟩
  intro s hs hp
  simp [validateResponse, hs, hp]

/-- Witness for C4's amended theorem at concrete inputs: a parse that rejects
the non-empty text "oops" yields the decode failure there. -/
theorem validateResponse_classification_witness :
    validateResponse (fun _ => none) (some "oops") =
      .error VError.decodeFailure :=
  (validateResponse_classification (fun _ => none)).2.2.1 "oops"
    (by decide) rfl

/-- Claim C9: the reply-reaction sub-flow never propagates an error to its
caller — for every failure (transport failure including rate-limit
exhaustion, absent or empty response text, or decode failure of the returned
text) `generateReplyReaction` returns the empty reply sequence. -/
theorem generateReplyReaction_degrades_to_empty
    (work : Nat → Except ApiError (Option String))
    (parse : String → Option (List Reply)) :
    (∀ e, (retryRequest work 3 0 2000).1 = .error e →
      generateReplyReaction work parse = []) ∧
    ((retryRequest work 3 0 2000).1 = .ok none →
      generateReplyReaction work parse = []) ∧
    ((retryRequest work 3 0 2000).1 = .ok (some "") →
      generateReplyReaction work parse = []) ∧
    (∀ s, (retryRequest work 3 0 2000).1 = .ok (some s) → parse s = none →
      generateReplyReaction work parse = []) := by
  refine ⟨?_, ?_, ?_, ?_⟩
  · intro e h
    simp [generateReplyReaction, h]
  · intro h
    simp [generateReplyReaction, h]
  · intro h
    simp [generateReplyReaction, h]
  · intro s h hp
    by_cases hs : s = ""
    · subst hs
      simp [generateReplyReaction, h]
    · simp [generateReplyReaction, h, hs, hp]

/-- Witness for C9 at concrete inputs: a transport that always fails with a
non-retriable error, and a successful transport whose text does not decode,
both degrade to the empty reply sequence. -/
theorem generateReplyReaction_degrades_to_empty_witness :
    generateReplyReaction
        (fun _ => .error ⟨some 500, none, some "boom"⟩) (fun _ => none) = [] ∧
    generateReplyReaction
        (fun _ => .ok (some "garbage")) (fun _ => none) = [] :=
  ⟨(generateReplyReaction_degrades_to_empty
        (fun _ => .error ⟨some 500, none, some "boom"⟩) (fun _ => none)).1
      ⟨some 500, none, some "boom"⟩ rfl,
    (generateReplyReaction_degrades_to_empty
        (fun _ => .ok (some "garbage")) (fun _ => none)).2.2.2 "garbage"
      rfl rfl⟩

/-- Fixture: a plain article with no mode flags. -/
def sampleArticle : Article :=
  { title := "특종", category := .society, content := "본문"
    author := "김기자", timestamp := "2024-01-01", isFakeNews := false
    isCrazyMode := false, isEmergencyMode := false
    isTimeMachineMode := false, targetYear := none
    previousArticleContext := none }

/-- Fixture: the app shell before submission — editor phase, no result,
empty session history. -/
def editorAppState : AppS :=
  { appState := .EDITOR, article := sampleArticle, result := none
    history := [] }

/-- Fixture: a transport that fails every attempt with a non-rate-limit
network error (HTTP 500). -/
def failingWork : Nat → Except ApiError (Option String) :=
  fun _ => .error ⟨some 500, none, some "network down"⟩

/-- Claim C1 (violated by the code): on a transport failure of the primary
simulation flow, `analyzeArticle` does not surface a failure — its `catch`
block constructs and returns the fallback `SimulationResult` — and
`handlePublish` then treats that as a success: it caches the constructed
result, prepends it to the session history, and moves the app to the RESULT
phase instead of returning to the pre-submission editor state.
(`handlePublish`'s own `catch` branch, which implements exactly the claimed
behaviour, is unreachable.) -/
theorem analyzeArticle_failure_cached_in_history :
    analyzeArticle failingWork (fun _ => none) = fallbackResult ∧
    (handlePublish failingWork (fun _ => none) editorAppState).history =
      [(sampleArticle, fallbackResult)] ∧
    (handlePublish failingWork (fun _ => none) editorAppState).appState =
      AppPhase.RESULT ∧
    (handlePublish failingWork (fun _ => none) editorAppState).result =
      some fallbackResult :=
  ⟨rfl, rfl, rfl, rfl⟩

/-- Claim C2 (violated by the code): with the news-portal platform filter
active, the displayed list is `[commentB]`, so the user's reply targets
`commentB` at displayed index 0; but `handleSubmitReply` applies that
displayed index to the unfiltered `localComments`, so the reply is appended
to `commentA` (underlying index 0) while the clicked comment `commentB` is
left untouched. -/
theorem handleSubmitReply_filtered_index_misroutes :
    filteredComments "뉴스 포털" [commentA, commentB] = [commentB] ∧
    commentB.replies = [] ∧
    (handleSubmitReplySync "김기자" 0 dashStateFiltered).localComments =
      [{ commentA with
          replies := [{ username := "김기자", content := "reply!"
                        likes := 0 }] },
        commentB] :=
  ⟨rfl, rfl, rfl⟩

/-- Claim C3 (violated by the code): while the reply-reaction sub-flow for
comment 0 is still pending (`generatingReplyId = some 0`), a second reply
submitted to the same comment is neither rejected nor queued —
`handleSubmitReply` consults no pending state and immediately merges the
second reply into comment 0 — and the single shared `generatingReplyId`
marker is simply overwritten by a submission addressed to a different
comment, so per-thread awaiting states are not independent. -/
theorem handleSubmitReply_accepts_while_pending :
    dashStatePending.generatingReplyId = some 0 ∧
    (handleSubmitReplySync "김기자" 0 dashStatePending).localComments =
      [{ commentA with
          replies := [{ username := "김기자", content := "second reply"
                        likes := 0 }] },
        commentB] ∧
    handleSubmitReplySync "김기자" 0 dashStatePending ≠ dashStatePending ∧
    (handleSubmitReplySync "김기자" 1
        { dashStatePending with replyText := "other thread" }
      ).generatingReplyId = some 1 :=
  ⟨rfl, rfl, by decide, rfl⟩
